import Mathlib

/-
Verification of the decision-and-risk pipeline of the NBA betting agent
(Forum3/billy2.0).  Monetary amounts, probabilities, odds and edges are
modelled as rationals; Python dictionaries with optional keys become
structures with Option fields; exceptions cannot occur in the embedded
fragments (every embedded function is total), which mirrors the source
where every arithmetic path is guarded.

Sources embedded below:
  src/agent/modules/reasoning.py   (ReasoningModule)
  src/agent/modules/risk_management.py (RiskManagementModule)
  src/agent/controller.py          (AgentController state machine and loop)
  src/agent/agent.py               (NBABettingAgent.run sleep computation)
  src/config/settings.py           (betting configuration defaults)
-/

namespace Billy

/-- Renders a rational with two decimal places.  It models the CPython
format spec .2f used throughout the source f-strings; CPython rounds
half to even while this model rounds half away from zero, a difference
none of the proved statements depend on (no claim inspects the digits). -/
def fmt2 (q : ℚ) : String :=
  let cents : ℤ := round (q * 100)
  let n : ℕ := cents.natAbs
  (if cents < 0 then "-" else "") ++ toString (n / 100) ++ "." ++
    (if n % 100 < 10 then "0" else "") ++ toString (n % 100)

/-- Renders a rational the way CPython renders a float inside a bare
f-string interpolation for the configuration values that occur in the
source (for example 2.0 prints as 2.0).  Approximate in the same sense
as fmt2: no proved statement depends on the digits. -/
def fmtNum (q : ℚ) : String :=
  if q.den = 1 then toString q.num ++ ".0" else fmt2 q

/-- Betting configuration (config/settings.py, betting section, read via
config.get in reasoning.py lines 334, 366-373). -/
structure BettingConfig where
  min_ev_threshold : ℚ
  max_kelly_fraction : ℚ
  bankroll : ℚ
  min_bet : ℚ
  max_bet : ℚ

/-- Default betting configuration values of config/settings.py lines
58-63: bankroll 1000, min_bet 10, max_bet 100, min_ev_threshold 2.0,
max_kelly_fraction 0.25. -/
def settings_cfg : BettingConfig :=
  { min_ev_threshold := 2
    max_kelly_fraction := 1/4
    bankroll := 1000
    min_bet := 10
    max_bet := 100 }

/-- ReasoningModule._odds_to_probability (reasoning.py lines 414-430).
The Python parameter is a float that may also be None; an absent or
falsy (zero) value yields 0.5 via the guard beginning if not odds, a
positive moneyline yields 100/(odds+100) and a negative one
abs(odds)/(abs(odds)+100).  none models a missing quote. -/
def odds_to_probability (odds : Option ℚ) : ℚ :=
  match odds with
  | none => 1/2
  | some o =>
      if o = 0 then 1/2
      else if 0 < o then 100 / (o + 100)
      else |o| / (|o| + 100)

/-- Output of ReasoningModule.calculate_probabilities consumed by
compare_to_market_odds (reasoning.py lines 188-190). -/
structure Probabilities where
  home_win_probability : ℚ
  away_win_probability : ℚ
  confidence : ℚ

/-- The four moneyline quotes extracted from odds_data in
compare_to_market_odds (reasoning.py lines 212-215); each nested
dictionary lookup may be absent, hence Option. -/
structure OddsData where
  dk_home_ml : Option ℚ
  dk_away_ml : Option ℚ
  true_home_ml : Option ℚ
  true_away_ml : Option ℚ

/-- Shape of the market_odds entry of the dictionary returned by
compare_to_market_odds: the placeholder branch (reasoning.py lines
195-198) stores only the two implied probabilities, while the main
branch (lines 240-253) stores the per-book implied probabilities under
the draftkings and true_line keys. -/
inductive MarketOddsInfo
  | simple (home_implied_probability away_implied_probability : ℚ)
  | detailed (dk_home_implied dk_away_implied true_home_implied true_away_implied : ℚ)

/-- One entry of the best_odds dictionary built by
compare_to_market_odds (reasoning.py lines 254-265). -/
structure BestOdds where
  book : String
  edge : ℚ
  odds : Option ℚ

/-- Result of ReasoningModule.compare_to_market_odds.  best_home and
best_away are none exactly when the best_odds key is absent, which
happens in the placeholder branch taken when odds_data is falsy. -/
structure MarketComparison where
  game_id : String
  market_odds : MarketOddsInfo
  best_home : Option BestOdds
  best_away : Option BestOdds
  home_edge : ℚ
  away_edge : ℚ

/-- ReasoningModule.compare_to_market_odds (reasoning.py lines 184-287).
The odds_data argument is none when the Python value is falsy (None or
an empty dictionary), which selects the placeholder branch with implied
probabilities 0.52 and 0.48 (lines 193-209).  Otherwise each missing or
zero moneyline falls back to implied probability 0.5 (lines 218-221:
the conditional expression yields 0.5 for a falsy quote, and
_odds_to_probability itself yields 0.5 for a zero quote).  The source
wraps the body in try/except; no embedded operation can raise, so the
except branch (lines 269-287) is unreachable here. -/
def compare_to_market_odds (probabilities : Probabilities) (game_id : String)
    (odds_data : Option OddsData) : MarketComparison :=
  let home_prob := probabilities.home_win_probability
  let away_prob := probabilities.away_win_probability
  match odds_data with
  | none =>
      { game_id := game_id
        market_odds := .simple (52/100) (48/100)
        best_home := none
        best_away := none
        home_edge := home_prob - 52/100
        away_edge := away_prob - 48/100 }
  | some od =>
      let dk_home_implied := odds_to_probability od.dk_home_ml
      let dk_away_implied := odds_to_probability od.dk_away_ml
      let true_home_implied := odds_to_probability od.true_home_ml
      let true_away_implied := odds_to_probability od.true_away_ml
      let dk_home_edge := home_prob - dk_home_implied
      let dk_away_edge := away_prob - dk_away_implied
      let true_home_edge := home_prob - true_home_implied
      let true_away_edge := away_prob - true_away_implied
      let best_home_edge := max dk_home_edge true_home_edge
      let best_away_edge := max dk_away_edge true_away_edge
      let best_home_book := if dk_home_edge ≥ true_home_edge then "DraftKings" else "True Line"
      let best_away_book := if dk_away_edge ≥ true_away_edge then "DraftKings" else "True Line"
      { game_id := game_id
        market_odds := .detailed dk_home_implied dk_away_implied true_home_implied true_away_implied
        best_home := some
          { book := best_home_book
            edge := best_home_edge
            odds := if dk_home_edge ≥ true_home_edge then od.dk_home_ml else od.true_home_ml }
        best_away := some
          { book := best_away_book
            edge := best_away_edge
            odds := if dk_away_edge ≥ true_away_edge then od.dk_away_ml else od.true_away_ml }
        home_edge := best_home_edge
        away_edge := best_away_edge }

/-- Kelly fraction exactly as computed in calculate_expected_value
(reasoning.py lines 313-314): max(0, edge / (1/p - 1)) guarded by
p > 0, else 0. -/
def kelly_fraction (edge p : ℚ) : ℚ :=
  if 0 < p then max 0 (edge / (1/p - 1)) else 0

/-- The pair of implied probabilities used for the Kelly computation in
calculate_expected_value (reasoning.py lines 304-310): the DraftKings
pair when the detailed market_odds structure is present, otherwise the
simple fallback pair. -/
def market_implied_probs (m : MarketOddsInfo) : ℚ × ℚ :=
  match m with
  | .detailed dkh dka _ _ => (dkh, dka)
  | .simple h a => (h, a)

/-- Result of ReasoningModule.calculate_expected_value. -/
structure EvCalculation where
  game_id : String
  home_expected_value : ℚ
  away_expected_value : ℚ
  home_kelly : ℚ
  away_kelly : ℚ
  best_home_book : String
  best_away_book : String
  best_home_odds : Option ℚ
  best_away_odds : Option ℚ

/-- ReasoningModule.calculate_expected_value (reasoning.py lines
289-330): expected values are the edges in percentage points, Kelly
fractions use the implied probabilities selected by
market_implied_probs, and the best-book fields default to Unknown and
None when best_odds is absent. -/
def calculate_expected_value (mc : MarketComparison) : EvCalculation :=
  let probs := market_implied_probs mc.market_odds
  { game_id := mc.game_id
    home_expected_value := mc.home_edge * 100
    away_expected_value := mc.away_edge * 100
    home_kelly := kelly_fraction mc.home_edge probs.1
    away_kelly := kelly_fraction mc.away_edge probs.2
    best_home_book := (mc.best_home.map BestOdds.book).getD "Unknown"
    best_away_book := (mc.best_away.map BestOdds.book).getD "Unknown"
    best_home_odds := mc.best_home.bind BestOdds.odds
    best_away_odds := mc.best_away.bind BestOdds.odds }

/-- The inline stake-sizing computation of make_betting_decision
(reasoning.py lines 370-374), applied only in the should_bet branch:
bet_size = min(kelly, max_kelly_fraction) * bankroll, then
bet_size = max(min_bet, min(bet_size, max_bet)). -/
def size_stake (cfg : BettingConfig) (kelly : ℚ) : ℚ :=
  let bet_size := min kelly cfg.max_kelly_fraction * cfg.bankroll
  max cfg.min_bet (min bet_size cfg.max_bet)

/-- Reasoning string of the proposed-bet branches of
make_betting_decision (reasoning.py lines 347 and 355); side is the
literal Home team or Away team prefix. -/
def bet_reasoning (side : String) (ev t : ℚ) (book : String) : String :=
  side ++ " has " ++ fmt2 ev ++ "% edge, which exceeds our " ++ fmtNum t ++
    "% threshold. Best odds at " ++ book ++ "."

/-- Reasoning string of the rejection branch of make_betting_decision
(reasoning.py line 363).  The grouping keeps the literal percent-sign
threshold mention as the outermost right operand; string append is
associative, so this is only a presentation choice. -/
def reject_reasoning (best t : ℚ) : String :=
  ("No bet has sufficient edge. Best option is " ++ fmt2 best ++
    "%, below our " ++ fmtNum t) ++ "% threshold"

/-- Summary string of make_betting_decision (reasoning.py line 387). -/
def decision_summary (should_bet : Bool) (ev bet_size : ℚ) : String :=
  (if should_bet then "Bet" else "Skip") ++ " with EV: " ++ fmt2 ev ++
    "%, size: $" ++ fmt2 bet_size

/-- The decision dictionary built by make_betting_decision
(reasoning.py lines 379-390). -/
structure Decision where
  game_id : String
  should_bet : Bool
  team : Option String
  expected_value : ℚ
  bet_size : ℚ
  reasoning : String
  confidence : ℚ
  summary : String
  book : Option String
  odds : Option ℚ

/-- ReasoningModule.make_betting_decision (reasoning.py lines 332-396).
The source first selects a branch with strict comparisons
(home_ev > away_ev and home_ev > min_ev_threshold, then the symmetric
away test, else no bet), then sizes the stake only when should_bet is
true and otherwise sets bet_size = 0.  The branch-local variables of
the source are inlined into the three record literals; the stake
computation of the bet branches is size_stake. -/
def make_betting_decision (cfg : BettingConfig) (evc : EvCalculation) : Decision :=
  let home_ev := evc.home_expected_value
  let away_ev := evc.away_expected_value
  if home_ev > away_ev ∧ home_ev > cfg.min_ev_threshold then
    let bs := size_stake cfg evc.home_kelly
    { game_id := evc.game_id
      should_bet := true
      team := some "home"
      expected_value := home_ev
      bet_size := bs
      reasoning := bet_reasoning "Home team" home_ev cfg.min_ev_threshold evc.best_home_book
      confidence := 7/10
      summary := decision_summary true home_ev bs
      book := some evc.best_home_book
      odds := evc.best_home_odds }
  else if away_ev > home_ev ∧ away_ev > cfg.min_ev_threshold then
    let bs := size_stake cfg evc.away_kelly
    { game_id := evc.game_id
      should_bet := true
      team := some "away"
      expected_value := away_ev
      bet_size := bs
      reasoning := bet_reasoning "Away team" away_ev cfg.min_ev_threshold evc.best_away_book
      confidence := 7/10
      summary := decision_summary true away_ev bs
      book := some evc.best_away_book
      odds := evc.best_away_odds }
  else
    { game_id := evc.game_id
      should_bet := false
      team := none
      expected_value := max home_ev away_ev
      bet_size := 0
      reasoning := reject_reasoning (max home_ev away_ev) cfg.min_ev_threshold
      confidence := 1/2
      summary := decision_summary false (max home_ev away_ev) 0
      book := none
      odds := none }

/-- Risk-management configuration extracted from config in
RiskManagementModule.__init__ (risk_management.py lines 39-47), with the
same defaults as config/settings.py. -/
structure RiskConfig where
  bankroll : ℚ
  min_bet : ℚ
  max_bet : ℚ
  min_ev_threshold : ℚ
  daily_loss_limit : ℚ
  daily_bet_limit : ℕ

/-- Default risk configuration (config/settings.py lines 58-63 and the
matching .get defaults of risk_management.py lines 41-47). -/
def settings_risk_cfg : RiskConfig :=
  { bankroll := 1000
    min_bet := 10
    max_bet := 100
    min_ev_threshold := 2
    daily_loss_limit := 100
    daily_bet_limit := 5 }

/-- The decision dictionaries handled by the risk-management module:
built in _handle_risk_assessment_state (controller.py lines 313-324)
and enriched by validate_betting_decision with original_bet_size and
risk_management_note. -/
structure RMDecision where
  game_id : String
  team : String
  expected_value : ℚ
  bet_size : ℚ
  confidence : ℚ
  should_bet : Bool
  summary : String
  original_bet_size : Option ℚ
  risk_management_note : Option String

/-- Risk note of the expected-value rejection (risk_management.py line 127). -/
def ev_reject_note (ev t : ℚ) : String :=
  "Expected value " ++ fmt2 ev ++ "% below threshold " ++ fmtNum t ++ "%"

/-- Risk note of the bet-size adjustment (risk_management.py line 142). -/
def size_adjust_note (original adjusted : ℚ) : String :=
  "Bet size adjusted from $" ++ fmt2 original ++ " to $" ++ fmt2 adjusted

/-- Risk note of the daily-bet-limit rejection (risk_management.py line 153). -/
def bet_limit_note (limit : ℕ) : String :=
  "Daily bet limit of " ++ toString limit ++ " reached"

/-- Risk note of the daily-loss-limit rejection (risk_management.py line 165). -/
def loss_limit_note (limit : ℚ) : String :=
  "Daily loss limit of $" ++ fmtNum limit ++ " reached"

/-- RiskManagementModule.validate_betting_decision (risk_management.py
lines 99-178).  The two daily checks _check_daily_bet_limit and
_check_daily_loss_limit query the external memory store; their boolean
results enter here as the parameters bet_limit_ok and loss_limit_ok
(true means the corresponding limit has not been reached).  The bankroll
is read nowhere in this function and is left untouched by it. -/
def validate_betting_decision (rc : RiskConfig) (bet_limit_ok loss_limit_ok : Bool)
    (d : RMDecision) : RMDecision :=
  if d.should_bet = false then d
  else
    let d1 := { d with original_bet_size := some d.bet_size }
    if d.expected_value < rc.min_ev_threshold then
      { d1 with should_bet := false
                risk_management_note := some (ev_reject_note d.expected_value rc.min_ev_threshold) }
    else
      let adjusted := max rc.min_bet (min d.bet_size rc.max_bet)
      let d2 :=
        if adjusted ≠ d.bet_size then
          { d1 with bet_size := adjusted
                    risk_management_note := some (size_adjust_note d.bet_size adjusted) }
        else d1
      if bet_limit_ok = false then
        { d2 with should_bet := false
                  risk_management_note := some (bet_limit_note rc.daily_bet_limit) }
      else if loss_limit_ok = false then
        { d2 with should_bet := false
                  risk_management_note := some (loss_limit_note rc.daily_loss_limit) }
      else d2

/-- Risk note of the portfolio scaling (risk_management.py line 283). -/
def portfolio_note (original adjusted : ℚ) : String :=
  "Bet size scaled down from $" ++ fmt2 original ++ " to $" ++ fmt2 adjusted ++
    " due to portfolio constraints"

/-- Per-decision effect of the portfolio scaling loop
(risk_management.py lines 279-284): an approved decision has its
bet_size multiplied by the scaling factor and its note replaced, a
rejected one is left untouched. -/
def scale_decision (k : ℚ) (d : RMDecision) : RMDecision :=
  if d.should_bet then
    { d with bet_size := d.bet_size * k
             risk_management_note := some (portfolio_note d.bet_size (d.bet_size * k)) }
  else d

/-- Sum of the stakes of the approved decisions of a batch
(risk_management.py line 270: sum of bet_size over the decisions with
should_bet true). -/
def approved_total (ds : List RMDecision) : ℚ :=
  ((ds.filter fun d => d.should_bet).map fun d => d.bet_size).sum

/-- Inner lookup of the merge loop of _apply_portfolio_constraints
(risk_management.py lines 290-293): the first entry of the active list
whose game_id and team both equal those of d, or d itself when no
entry matches (the for loop then leaves decisions[i] unchanged). -/
def first_key_match (active : List RMDecision) (d : RMDecision) : RMDecision :=
  match active.find? fun u => u.game_id == d.game_id && u.team == d.team with
  | some u => u
  | none => d

/-- RiskManagementModule._apply_portfolio_constraints
(risk_management.py lines 253-295).  The cap is bankroll * 0.1 (line
273) and the scaling factor cap / total (line 277).  The source first
mutates the decision dictionaries of active_decisions in place (those
entries alias the entries of decisions), then runs a merge loop (lines
287-293) that replaces every approved entry of decisions by the FIRST
entry of active_decisions carrying the same (game_id, team) pair.
The embedding applies the scaling as a map and then performs the same
first-match replacement; when two approved entries share a key the
later one is replaced by the earlier, exactly as in the source. -/
def apply_portfolio_constraints (rc : RiskConfig) (decisions : List RMDecision) :
    List RMDecision :=
  let active := decisions.filter fun d => d.should_bet
  if active.isEmpty then decisions
  else
    let total_bet_amount := (active.map fun d => d.bet_size).sum
    let max_daily_bet_amount := rc.bankroll * (1/10)
    let scaled :=
      if total_bet_amount > max_daily_bet_amount then
        decisions.map (scale_decision (max_daily_bet_amount / total_bet_amount))
      else decisions
    scaled.map fun d =>
      if d.should_bet then first_key_match (scaled.filter fun a => a.should_bet) d
      else d

/-- RiskManagementModule.validate_betting_decisions (risk_management.py
lines 180-200): first pass applies validate_betting_decision to every
decision, second pass applies the portfolio constraints to the batch. -/
def validate_betting_decisions (rc : RiskConfig) (bet_limit_ok loss_limit_ok : Bool)
    (decisions : List RMDecision) : List RMDecision :=
  apply_portfolio_constraints rc
    (decisions.map (validate_betting_decision rc bet_limit_ok loss_limit_ok))

/-- The mutable bankroll of the risk-management module
(risk_management.py line 41, updated only by update_bankroll). -/
structure RiskState where
  bankroll : ℚ

/-- RiskManagementModule.update_bankroll (risk_management.py lines
297-336): a win adds the amount to the bankroll, anything else
subtracts it; the remainder of the function only formats and stores a
memory record. -/
def update_bankroll (st : RiskState) (amount : ℚ) (is_win : Bool) : RiskState :=
  if is_win then { st with bankroll := st.bankroll + amount }
  else { st with bankroll := st.bankroll - amount }

/-- The execution-results dictionary built by
ExecutionModule.execute_betting_actions (execution.py lines 210-215,
255-257 and 267): its keys are bets_placed, total_amount, bet_details,
timestamp and summary.  No key named bets is ever written to it,
neither there nor anywhere else in the repository. -/
structure ExecutionResults where
  bets_placed : ℕ
  total_amount : ℚ
  bet_details : List ℚ

/-- The lookup execution_results.get("bets", []) of controller.py line
472: the dictionary never carries a bets key (its bet records live
under bet_details), so the lookup always yields the empty default. -/
def execution_results_bets (res : ExecutionResults) : List ℚ := []

/-- Bankroll effect of AgentController._handle_execution_state
(controller.py lines 471-478): the loop iterates
execution_results.get("bets", []) and would call
update_bankroll(amount, is_win=False) once per entry, but the list it
iterates is always the empty default, so the loop body never runs and
submission leaves the bankroll unchanged. -/
def handle_execution_bankroll (st : RiskState) (res : ExecutionResults) : RiskState :=
  (execution_results_bets res).foldl (fun s a => update_bankroll s a false) st

/-- Bankroll effect of ExecutionModule.monitor_outcomes (execution.py
lines 326-375): settlement of a completed game writes a settled
bet_record with the profit into memory and updates the strategy store,
but never touches the risk-management bankroll. -/
def monitor_outcomes_bankroll (st : RiskState) : RiskState := st

/-- AgentState (controller.py lines 22-29). -/
inductive AgentState
  | initializing
  | researching
  | reasoning
  | risk_assessment
  | executing
  | idle
  | error
deriving DecidableEq

/-- Outcomes of the external calls a single tick of
AgentController._process_current_state depends on.  A throws flag set
means the corresponding module call raised and the except branch of the
handler runs; actionable_bets and approved_bets tell whether the
reasoning and risk handlers produced at least one surviving decision;
research_due models the staleness test of _handle_idle_state
(controller.py line 499). -/
structure TickInput where
  research_throws : Bool
  reasoning_throws : Bool
  actionable_bets : Bool
  risk_throws : Bool
  approved_bets : Bool
  exec_throws : Bool
  research_due : Bool

/-- AgentController._process_current_state (controller.py lines
172-185) together with the state transitions of the six handlers
(lines 187-543).  Every handler catches its exceptions and sets the
next state, so the step is a total function: the research, reasoning,
risk and execution handlers transition to error when their body raises
(lines 224-228, 295-299, 397-401, 485-489); reasoning and risk fall to
idle when nothing survives (lines 289-293, 391-395); execution always
falls to idle on success (line 483); idle returns to researching when
the research interval has elapsed (lines 496-501) and swallows
monitoring errors (lines 521-524); the error handler always resets to
idle (line 543); _process_current_state has no branch for
initializing, which therefore stays put. -/
def process_current_state (s : AgentState) (inp : TickInput) : AgentState :=
  match s with
  | .initializing => .initializing
  | .researching => if inp.research_throws then .error else .reasoning
  | .reasoning =>
      if inp.reasoning_throws then .error
      else if inp.actionable_bets then .risk_assessment else .idle
  | .risk_assessment =>
      if inp.risk_throws then .error
      else if inp.approved_bets then .executing else .idle
  | .executing => if inp.exec_throws then .error else .idle
  | .idle => if inp.research_due then .researching else .idle
  | .error => .idle

/-- Loop configuration of the controller (config/settings.py line 24:
loop_interval, default 60 seconds). -/
structure AgentLoopConfig where
  loop_interval : ℚ

/-- Sleep performed between ticks by AgentController.start
(controller.py line 134): time.sleep(config.agent.loop_interval).  The
elapsed argument is the processing time of the tick that just finished;
the source does not use it, so the result is the configured constant. -/
def controller_sleep_seconds (cfg : AgentLoopConfig) (elapsed : ℚ) : ℚ :=
  cfg.loop_interval

/-- Sleep computed by NBABettingAgent.run (agent.py line 163), the
other main loop of the repository: max(1, loop_interval -
cycle_duration). -/
def agent_run_sleep_seconds (loop_interval cycle_duration : ℚ) : ℚ :=
  max 1 (loop_interval - cycle_duration)

/-- Modelled from the spec: the sleep rule stated in spec section 4.5,
max(1, configured_interval - elapsed_processing_time), used as the
comparison point for the controller sleep. -/
def spec_sleep_seconds (interval elapsed : ℚ) : ℚ :=
  max 1 (interval - elapsed)

/-- Probabilities input with model probability one half for both sides,
used to exhibit the placeholder implied probabilities. -/
def probs_half : Probabilities :=
  { home_win_probability := 1/2
    away_win_probability := 1/2
    confidence := 7/10 }

/-- Probabilities of the spec scenario: model probability 0.515 for the
home side. -/
def probs_scenario : Probabilities :=
  { home_win_probability := 515/1000
    away_win_probability := 485/1000
    confidence := 3/4 }

/-- Moneyline quote whose implied probability is exactly 0.51:
odds_to_probability (some (4900/51)) = 100/((4900/51)+100)
 = 5100/10000. -/
def ml_51 : Option ℚ := some (4900/51)

/-- Odds data quoting implied probability 0.51 on both sides at both
books, realising the market-implied probability 0.51 of the spec
scenario. -/
def odds_scenario : OddsData :=
  { dk_home_ml := ml_51
    dk_away_ml := ml_51
    true_home_ml := ml_51
    true_away_ml := ml_51 }

/-- Market comparison of the spec scenario: model 0.515 versus
market-implied 0.51, an edge of 0.005, that is 0.5 percentage points. -/
def scenario_mc : MarketComparison :=
  compare_to_market_odds probs_scenario "scenario" (some odds_scenario)

/-- Expected-value calculation with both edges equal and above the
threshold (5 percentage points each). -/
def evc_tie : EvCalculation :=
  { game_id := "tie"
    home_expected_value := 5
    away_expected_value := 5
    home_kelly := 1/10
    away_kelly := 1/10
    best_home_book := "DraftKings"
    best_away_book := "DraftKings"
    best_home_odds := none
    best_away_odds := none }

/-- Expected-value calculation whose best edge equals the default
threshold exactly (home 2.0, away 1.0). -/
def evc_at_threshold : EvCalculation :=
  { game_id := "at-threshold"
    home_expected_value := 2
    away_expected_value := 1
    home_kelly := 1/10
    away_kelly := 1/20
    best_home_book := "DraftKings"
    best_away_book := "True Line"
    best_home_odds := some (-110)
    best_away_odds := some 120 }

/-- Expected-value calculation with a clear home edge (5 versus 3). -/
def evc_home5 : EvCalculation :=
  { game_id := "home5"
    home_expected_value := 5
    away_expected_value := 3
    home_kelly := 1/10
    away_kelly := 1/20
    best_home_book := "DraftKings"
    best_away_book := "DraftKings"
    best_home_odds := some (-110)
    best_away_odds := some 120 }

/-- Market comparison with a large home edge over the simple fallback
probabilities, driving a proposed bet. -/
def mc_home_bet : MarketComparison :=
  { game_id := "homebet"
    market_odds := .simple (51/100) (49/100)
    best_home := none
    best_away := none
    home_edge := 1/10
    away_edge := 0 }

/-- Single approved risk decision used in concrete batches. -/
def rm_decision (gid team : String) (sz : ℚ) : RMDecision :=
  { game_id := gid
    team := team
    expected_value := 5
    bet_size := sz
    confidence := 7/10
    should_bet := true
    summary := ""
    original_bet_size := none
    risk_management_note := none }

/-- Batch of two approved decisions of 60 each: total 120, above the
10 percent cap of the default bankroll 1000. -/
def ds_over_cap : List RMDecision :=
  [rm_decision "g1" "home" 60, rm_decision "g2" "away" 60]

/-- Batch of two approved decisions with the SAME (game_id, team) key
and unequal stakes 30 and 90: total 120, above the cap 100 of the
default bankroll 1000. -/
def ds_dup : List RMDecision :=
  [rm_decision "g1" "home" 30, rm_decision "g1" "home" 90]

theorem scale_decision_should_bet (k : ℚ) (d : RMDecision) :
    (scale_decision k d).should_bet = d.should_bet := by
  unfold scale_decision
  split_ifs <;> rfl

theorem scale_decision_bet_size (k : ℚ) (d : RMDecision) :
    (scale_decision k d).bet_size =
      if d.should_bet then d.bet_size * k else d.bet_size := by
  unfold scale_decision
  split_ifs <;> rfl

theorem approved_total_cons (d : RMDecision) (t : List RMDecision) :
    approved_total (d :: t) =
      (if d.should_bet then d.bet_size else 0) + approved_total t := by
  by_cases hd : d.should_bet = true <;>
    simp [approved_total, List.filter_cons, hd]

theorem approved_total_map_scale (k : ℚ) (ds : List RMDecision) :
    approved_total (ds.map (scale_decision k)) = approved_total ds * k := by
  induction ds with
  | nil => simp [approved_total]
  | cons d t ih =>
      rw [List.map_cons, approved_total_cons, approved_total_cons, ih,
        scale_decision_should_bet, scale_decision_bet_size]
      by_cases hd : d.should_bet = true <;> simp [hd] <;> ring

theorem map_should_bet_scale (k : ℚ) (ds : List RMDecision) :
    (ds.map (scale_decision k)).map RMDecision.should_bet =
      ds.map RMDecision.should_bet := by
  induction ds with
  | nil => rfl
  | cons d t ih => simp [scale_decision_should_bet, ih]

theorem map_bet_size_scale (k : ℚ) (ds : List RMDecision) :
    (ds.map (scale_decision k)).map RMDecision.bet_size =
      ds.map (fun d => if d.should_bet then d.bet_size * k else d.bet_size) := by
  induction ds with
  | nil => rfl
  | cons d t ih => simp [scale_decision_bet_size, ih]

theorem scale_decision_game_id (k : ℚ) (d : RMDecision) :
    (scale_decision k d).game_id = d.game_id := by
  unfold scale_decision
  split_ifs <;> rfl

theorem scale_decision_team (k : ℚ) (d : RMDecision) :
    (scale_decision k d).team = d.team := by
  unfold scale_decision
  split_ifs <;> rfl

theorem filter_scale (k : ℚ) (ds : List RMDecision) :
    (ds.map (scale_decision k)).filter (fun d => d.should_bet) =
      (ds.filter fun d => d.should_bet).map (scale_decision k) := by
  induction ds with
  | nil => rfl
  | cons d t ih =>
      by_cases hd : d.should_bet = true <;>
        simp [List.filter_cons, scale_decision_should_bet, hd, ih]

theorem find_first_self :
    ∀ active : List RMDecision,
      (active.map fun d => (d.game_id, d.team)).Nodup →
      ∀ d : RMDecision, d ∈ active → first_key_match active d = d := by
  intro active
  induction active with
  | nil =>
      intro _ d hd
      cases hd
  | cons u t ih =>
      intro hnd d hd
      rw [List.map_cons, List.nodup_cons] at hnd
      rcases List.mem_cons.mp hd with rfl | hdt
      · unfold first_key_match
        rw [List.find?_cons_of_pos _ (by simp)]
      · have hne : ¬ ((u.game_id == d.game_id && u.team == d.team) = true) := by
          simp only [Bool.and_eq_true, beq_iff_eq]
          rintro ⟨h1, h2⟩
          exact hnd.1 (by rw [h1, h2]; exact List.mem_map_of_mem _ hdt)
        have hstep : List.find?
              (fun v => v.game_id == d.game_id && v.team == d.team) (u :: t) =
            List.find? (fun v => v.game_id == d.game_id && v.team == d.team) t :=
          List.find?_cons_of_neg t hne
        unfold first_key_match
        rw [hstep]
        exact ih hnd.2 d hdt

theorem merge_noop (l : List RMDecision)
    (hnd : ((l.filter fun d => d.should_bet).map fun d => (d.game_id, d.team)).Nodup) :
    (l.map fun d =>
      if d.should_bet then first_key_match (l.filter fun a => a.should_bet) d else d) = l := by
  have hpt : ∀ d ∈ l,
      (if d.should_bet then first_key_match (l.filter fun a => a.should_bet) d else d) = d := by
    intro d hd
    by_cases hsb : d.should_bet = true
    · rw [if_pos hsb,
        find_first_self _ hnd d (List.mem_filter.mpr ⟨hd, hsb⟩)]
    · rw [if_neg hsb]
  rw [List.map_congr_left hpt]
  simp

/-- C10: the moneyline-to-implied-probability conversion is total, its
result lies strictly between 0 and 1, it returns 0.5 for an absent or
zero quote, 100/(odds+100) for positive odds and
abs(odds)/(abs(odds)+100) for negative odds. -/
theorem odds_to_probability_total_in_unit (o : Option ℚ) :
    (0 < odds_to_probability o ∧ odds_to_probability o < 1) ∧
    (o = none → odds_to_probability o = 1/2) ∧
    (o = some 0 → odds_to_probability o = 1/2) ∧
    (∀ q : ℚ, o = some q → 0 < q → odds_to_probability o = 100 / (q + 100)) ∧
    (∀ q : ℚ, o = some q → q < 0 → odds_to_probability o = |q| / (|q| + 100)) := by
  refine ⟨?_, ?_, ?_, ?_, ?_⟩
  · match o with
    | none => norm_num [odds_to_probability]
    | some q =>
        simp only [odds_to_probability]
        split_ifs with h0 hpos
        · norm_num
        · constructor
          · positivity
          · rw [div_lt_one (by linarith)]
            linarith
        · have hq : q < 0 := lt_of_le_of_ne (not_lt.mp hpos) h0
          have habs : 0 < |q| := abs_pos.mpr h0
          constructor
          · positivity
          · rw [div_lt_one (by linarith)]
            linarith
  · rintro rfl
    rfl
  · rintro rfl
    norm_num [odds_to_probability]
  · rintro q rfl hq
    simp [odds_to_probability, hq, hq.ne']
  · rintro q rfl hq
    simp [odds_to_probability, hq.ne, hq.not_lt]

/-- Witness for C10 at the concrete quote -110. -/
theorem odds_to_probability_total_in_unit_witness :
    (0 < odds_to_probability (some (-110)) ∧ odds_to_probability (some (-110)) < 1) ∧
    odds_to_probability (some (-110)) = |(-110 : ℚ)| / (|(-110 : ℚ)| + 100) := by
  have h := odds_to_probability_total_in_unit (some (-110))
  exact ⟨h.1, h.2.2.2.2 (-110) rfl (by norm_num)⟩

/-- C3: for a positive edge and a market probability in the open unit
interval, the stake produced by the sizing step of
make_betting_decision lies within the configured min and max bet
bounds whenever min_bet is at most max_bet. -/
theorem size_stake_within_limits (cfg : BettingConfig) (edge p : ℚ)
    (hedge : 0 < edge) (hp0 : 0 < p) (hp1 : p < 1)
    (hmm : cfg.min_bet ≤ cfg.max_bet) :
    cfg.min_bet ≤ size_stake cfg (kelly_fraction edge p) ∧
    size_stake cfg (kelly_fraction edge p) ≤ cfg.max_bet := by
  unfold size_stake
  exact ⟨le_max_left _ _, max_le hmm (min_le_right _ _)⟩

/-- Witness for C3 at edge 0.1 and market probability 0.51 under the
default configuration. -/
theorem size_stake_within_limits_witness :
    settings_cfg.min_bet ≤ size_stake settings_cfg (kelly_fraction (1/10) (51/100)) ∧
    size_stake settings_cfg (kelly_fraction (1/10) (51/100)) ≤ settings_cfg.max_bet :=
  size_stake_within_limits settings_cfg (1/10) (51/100)
    (by norm_num) (by norm_num) (by norm_num) (by norm_num [settings_cfg])

/-- C6: an exception raised by the research module while the state is
RESEARCHING is caught by the handler, which sets the state to ERROR,
and the next tick runs the error handler, which resets the state to
IDLE; both handlers are total in the embedding, so no exception
escapes them. -/
theorem research_exception_recovers (inp next_inp : TickInput)
    (h : inp.research_throws = true) :
    process_current_state .researching inp = .error ∧
    process_current_state .error next_inp = .idle := by
  constructor
  · simp [process_current_state, h]
  · rfl

/-- Witness for C6 at a concrete failing tick followed by a quiet tick. -/
theorem research_exception_recovers_witness :
    process_current_state .researching
        ⟨true, false, false, false, false, false, false⟩ = .error ∧
    process_current_state .error
        ⟨false, false, false, false, false, false, false⟩ = .idle :=
  research_exception_recovers _ _ rfl

/-- Counterexample to C8: with loop_interval 10 and a tick that took 5
seconds, AgentController.start sleeps 10 seconds, not the
max(1, interval - elapsed) = 5 seconds the claim states. -/
theorem controller_sleep_ignores_elapsed :
    controller_sleep_seconds ⟨10⟩ 5 ≠ spec_sleep_seconds 10 5 := by
  unfold controller_sleep_seconds spec_sleep_seconds
  rw [show (10 : ℚ) - 5 = 5 by norm_num, max_eq_right (by norm_num : (1:ℚ) ≤ 5)]
  norm_num

/-- C8 amended: between consecutive ticks AgentController.start sleeps
exactly the configured loop_interval, independent of the processing
time of the tick; the max(1, interval - elapsed) rule of the claim is
implemented only by the other main loop, NBABettingAgent.run in
agent.py, whose sleep is indeed at least one second. -/
theorem controller_sleep_is_fixed_interval (cfg : AgentLoopConfig)
    (e1 e2 interval cycle_duration : ℚ) :
    controller_sleep_seconds cfg e1 = cfg.loop_interval ∧
    controller_sleep_seconds cfg e1 = controller_sleep_seconds cfg e2 ∧
    agent_run_sleep_seconds interval cycle_duration =
      max 1 (interval - cycle_duration) ∧
    1 ≤ agent_run_sleep_seconds interval cycle_duration :=
  ⟨rfl, rfl, rfl, le_max_left 1 _⟩

/-- C5: the bankroll balance is never mutated by submitting a bet: the
deduction loop of the execution handler iterates
execution_results.get("bets", []), a key execute_betting_actions never
writes, so it never runs; outcome monitoring only writes memory
records and also leaves the balance unchanged; stake sizing and risk
validation are pure functions that do not touch a RiskState at all;
and update_bankroll, the single mutation site of the balance, applies
exactly the win/loss delta when it is invoked.  The only-on-settlement
invariant of the claim therefore holds of every reachable mutation. -/
theorem bankroll_settlement_only (st : RiskState) (res : ExecutionResults) (a : ℚ) :
    (handle_execution_bankroll st res).bankroll = st.bankroll ∧
    (monitor_outcomes_bankroll st).bankroll = st.bankroll ∧
    (update_bankroll st a true).bankroll = st.bankroll + a ∧
    (update_bankroll st a false).bankroll = st.bankroll - a := by
  refine ⟨rfl, rfl, ?_, ?_⟩ <;> simp [update_bankroll]

/-- Counterexample to C7: with model probability 0.5 and an absent or
empty odds dictionary, the home edge is 0.5 - 0.52 = -0.02, not the
0.5-probability-fallback edge 0 stated by the claim; the empty case
uses the placeholder implied probabilities 0.52 and 0.48. -/
theorem empty_odds_uses_placeholder :
    (compare_to_market_odds probs_half "g1" none).home_edge ≠
      probs_half.home_win_probability - 1/2 := by
  norm_num [compare_to_market_odds, probs_half]

/-- C7 amended: the edge computation is a total function; when the
odds dictionary is absent or empty it computes the edges against the
placeholder implied probabilities 0.52 (home) and 0.48 (away), and
when the dictionary is present but individual quotes are missing each
missing quote falls back to implied probability 0.5, so an
all-missing quote set yields edges against 0.5 on both sides. -/
theorem edge_fallback_probabilities (probs : Probabilities) (gid : String) :
    ((compare_to_market_odds probs gid none).home_edge =
        probs.home_win_probability - 52/100 ∧
      (compare_to_market_odds probs gid none).away_edge =
        probs.away_win_probability - 48/100) ∧
    ((compare_to_market_odds probs gid (some ⟨none, none, none, none⟩)).home_edge =
        probs.home_win_probability - 1/2 ∧
      (compare_to_market_odds probs gid (some ⟨none, none, none, none⟩)).away_edge =
        probs.away_win_probability - 1/2) := by
  refine ⟨⟨rfl, rfl⟩, ?_, ?_⟩ <;>
    simp [compare_to_market_odds, odds_to_probability]

/-- Counterexample to C9: with both expected values equal to 5, above
the default threshold 2, neither strict comparison of
make_betting_decision holds, so the decision is a rejection instead of
the home-side proposal stated by the claim. -/
theorem equal_edges_reject :
    settings_cfg.min_ev_threshold < evc_tie.home_expected_value ∧
    settings_cfg.min_ev_threshold < evc_tie.away_expected_value ∧
    (make_betting_decision settings_cfg evc_tie).should_bet = false := by
  refine ⟨by norm_num [settings_cfg, evc_tie], by norm_num [settings_cfg, evc_tie], ?_⟩
  simp only [make_betting_decision]
  split_ifs with h1 h2
  · exact absurd h1.1 (by norm_num [evc_tie])
  · exact absurd h2.1 (by norm_num [evc_tie])
  · rfl

/-- C9 amended: when the two expected values are exactly equal the
decision step proposes no bet (both branch guards are strict
comparisons); an outcome is selected only when its expected value
strictly exceeds both the other outcome and the threshold, home side
through the first branch and away side through the second. -/
theorem tie_requires_strict_winner (cfg : BettingConfig) (evc : EvCalculation) :
    (evc.home_expected_value = evc.away_expected_value →
      (make_betting_decision cfg evc).should_bet = false) ∧
    (evc.home_expected_value > evc.away_expected_value →
      evc.home_expected_value > cfg.min_ev_threshold →
        (make_betting_decision cfg evc).should_bet = true ∧
        (make_betting_decision cfg evc).team = some "home") ∧
    (evc.away_expected_value > evc.home_expected_value →
      evc.away_expected_value > cfg.min_ev_threshold →
        (make_betting_decision cfg evc).should_bet = true ∧
        (make_betting_decision cfg evc).team = some "away") := by
  refine ⟨?_, ?_, ?_⟩ <;> simp only [make_betting_decision]
  · intro h
    split_ifs with h1 h2
    · exact absurd h1.1 (by simp [h])
    · exact absurd h2.1 (by simp [h])
    · rfl
  · intro h1 h2
    split_ifs with hc1 hc2
    · exact ⟨rfl, rfl⟩
    · exact absurd ⟨h1, h2⟩ hc1
    · exact absurd ⟨h1, h2⟩ hc1
  · intro h1 h2
    split_ifs with hc1 hc2
    · exact absurd hc1.1 (lt_asymm h1)
    · exact ⟨rfl, rfl⟩
    · exact absurd ⟨h1, h2⟩ hc2

/-- Witness for the amended C9 at expected values 5 versus 3 under the
default configuration: the home side is selected. -/
theorem tie_requires_strict_winner_witness :
    (make_betting_decision settings_cfg evc_home5).should_bet = true ∧
    (make_betting_decision settings_cfg evc_home5).team = some "home" :=
  (tie_requires_strict_winner settings_cfg evc_home5).2.1
    (by norm_num [evc_home5]) (by norm_num [evc_home5, settings_cfg])

/-- Counterexample to C4: with the best edge exactly at the threshold
(home 2.0, away 1.0, threshold 2.0) the best edge is not below the
threshold, yet the decision is a rejection, because the branch guards
are strict. -/
theorem at_threshold_not_proposed :
    ¬ (max evc_at_threshold.home_expected_value
          evc_at_threshold.away_expected_value < settings_cfg.min_ev_threshold) ∧
    (make_betting_decision settings_cfg evc_at_threshold).should_bet = false := by
  constructor
  · norm_num [evc_at_threshold, settings_cfg]
  · simp only [make_betting_decision]
    split_ifs with h1 h2
    · exact absurd h1.2 (by norm_num [evc_at_threshold, settings_cfg])
    · exact absurd h2.1 (by norm_num [evc_at_threshold])
    · rfl

/-- C4 amended: when the best edge is strictly below the threshold the
pipeline produces a rejected decision with stake 0 and a reasoning
string that mentions the threshold; conversely a proposed decision is
produced exactly when one of the two expected values strictly exceeds
both the other and the threshold, so a best edge equal to the
threshold, or a tie, is also rejected. -/
theorem threshold_rejection (cfg : BettingConfig) (evc : EvCalculation) :
    (max evc.home_expected_value evc.away_expected_value < cfg.min_ev_threshold →
      (make_betting_decision cfg evc).should_bet = false ∧
      (make_betting_decision cfg evc).bet_size = 0 ∧
      (make_betting_decision cfg evc).reasoning =
        reject_reasoning (max evc.home_expected_value evc.away_expected_value)
          cfg.min_ev_threshold ∧
      ∃ pre, (make_betting_decision cfg evc).reasoning = pre ++ "% threshold") ∧
    ((make_betting_decision cfg evc).should_bet = true ↔
      (evc.home_expected_value > evc.away_expected_value ∧
        evc.home_expected_value > cfg.min_ev_threshold) ∨
      (evc.away_expected_value > evc.home_expected_value ∧
        evc.away_expected_value > cfg.min_ev_threshold)) := by
  constructor
  · intro h
    have hh : evc.home_expected_value < cfg.min_ev_threshold :=
      lt_of_le_of_lt (le_max_left _ _) h
    have ha : evc.away_expected_value < cfg.min_ev_threshold :=
      lt_of_le_of_lt (le_max_right _ _) h
    simp only [make_betting_decision]
    split_ifs with h1 h2
    · exact absurd h1.2 (not_lt.mpr hh.le)
    · exact absurd h2.2 (not_lt.mpr ha.le)
    · exact ⟨rfl, rfl, rfl, _, rfl⟩
  · simp only [make_betting_decision]
    split_ifs with h1 h2
    · exact iff_of_true rfl (Or.inl h1)
    · exact iff_of_true rfl (Or.inr h2)
    · refine iff_of_false (by simp) ?_
      rintro (hc | hc)
      · exact h1 hc
      · exact h2 hc

theorem scenario_home_edge : scenario_mc.home_edge = 1/200 := by
  show max (probs_scenario.home_win_probability - odds_to_probability odds_scenario.dk_home_ml)
      (probs_scenario.home_win_probability - odds_to_probability odds_scenario.true_home_ml)
    = 1/200
  norm_num [probs_scenario, odds_scenario, ml_51, odds_to_probability]

theorem scenario_away_edge : scenario_mc.away_edge = -(1/40) := by
  show max (probs_scenario.away_win_probability - odds_to_probability odds_scenario.dk_away_ml)
      (probs_scenario.away_win_probability - odds_to_probability odds_scenario.true_away_ml)
    = -(1/40)
  norm_num [probs_scenario, odds_scenario, ml_51, odds_to_probability]

/-- Witness for C4 realising the spec scenario: model probability 0.515
against market-implied probability 0.51 gives a 0.5-point edge, which
is below the default threshold 2.0, so the decision is a rejection
with stake 0 whose reasoning mentions the threshold. -/
theorem threshold_rejection_witness :
    (make_betting_decision settings_cfg (calculate_expected_value scenario_mc)).should_bet
        = false ∧
    (make_betting_decision settings_cfg (calculate_expected_value scenario_mc)).bet_size
        = 0 ∧
    ∃ pre, (make_betting_decision settings_cfg
        (calculate_expected_value scenario_mc)).reasoning = pre ++ "% threshold" := by
  have h1 : (calculate_expected_value scenario_mc).home_expected_value = 1/2 := by
    show scenario_mc.home_edge * 100 = 1/2
    rw [scenario_home_edge]
    norm_num
  have h2 : (calculate_expected_value scenario_mc).away_expected_value = -(5/2) := by
    show scenario_mc.away_edge * 100 = -(5/2)
    rw [scenario_away_edge]
    norm_num
  have h := (threshold_rejection settings_cfg (calculate_expected_value scenario_mc)).1
    (by rw [h1, h2]; norm_num [settings_cfg, max_def])
  exact ⟨h.1, h.2.1, h.2.2.2⟩

/-- C1: whenever make_betting_decision proposes a bet, its stake is
min(kelly, max_kelly_fraction) * bankroll clamped into
[min_bet, max_bet], where kelly is max(0, edge / (1/p - 1)) for the
market probability p selected by calculate_expected_value (and 0 when
p is not positive), the edge and p being those of the chosen side. -/
theorem stake_formula_on_proposal (cfg : BettingConfig) (mc : MarketComparison)
    (h : (make_betting_decision cfg (calculate_expected_value mc)).should_bet = true) :
    ((make_betting_decision cfg (calculate_expected_value mc)).team = some "home" →
      (make_betting_decision cfg (calculate_expected_value mc)).bet_size =
        max cfg.min_bet (min
          (min (kelly_fraction mc.home_edge (market_implied_probs mc.market_odds).1)
            cfg.max_kelly_fraction * cfg.bankroll) cfg.max_bet)) ∧
    ((make_betting_decision cfg (calculate_expected_value mc)).team = some "away" →
      (make_betting_decision cfg (calculate_expected_value mc)).bet_size =
        max cfg.min_bet (min
          (min (kelly_fraction mc.away_edge (market_implied_probs mc.market_odds).2)
            cfg.max_kelly_fraction * cfg.bankroll) cfg.max_bet)) ∧
    ((make_betting_decision cfg (calculate_expected_value mc)).team = some "home" ∨
      (make_betting_decision cfg (calculate_expected_value mc)).team = some "away") := by
  simp only [make_betting_decision] at h ⊢
  split_ifs at h ⊢ with h1 h2
  · refine ⟨fun _ => rfl, fun hc => absurd hc (by simp), Or.inl rfl⟩
  · refine ⟨fun hc => absurd hc (by simp), fun _ => rfl, Or.inr rfl⟩

/-- Witness for C1 at a market comparison with home edge 0.1 over the
simple fallback probabilities: the proposed stake equals the clamped
fractional-Kelly amount. -/
theorem stake_formula_on_proposal_witness :
    (make_betting_decision settings_cfg (calculate_expected_value mc_home_bet)).team
        = some "home" ∧
    (make_betting_decision settings_cfg (calculate_expected_value mc_home_bet)).bet_size =
      max settings_cfg.min_bet (min
        (min (kelly_fraction mc_home_bet.home_edge
            (market_implied_probs mc_home_bet.market_odds).1)
          settings_cfg.max_kelly_fraction * settings_cfg.bankroll)
        settings_cfg.max_bet) := by
  have hcond : (calculate_expected_value mc_home_bet).home_expected_value >
      (calculate_expected_value mc_home_bet).away_expected_value ∧
      (calculate_expected_value mc_home_bet).home_expected_value >
        settings_cfg.min_ev_threshold := by
    norm_num [calculate_expected_value, mc_home_bet, settings_cfg]
  have hteam : (make_betting_decision settings_cfg
      (calculate_expected_value mc_home_bet)).team = some "home" := by
    simp only [make_betting_decision]
    rw [if_pos hcond]
  have hsb : (make_betting_decision settings_cfg
      (calculate_expected_value mc_home_bet)).should_bet = true := by
    simp only [make_betting_decision]
    rw [if_pos hcond]
  have h := stake_formula_on_proposal settings_cfg mc_home_bet hsb
  exact ⟨hteam, h.1 hteam⟩

/-- Counterexample to C2: two approved decisions with the same
(game_id, team) key and stakes 30 and 90 against bankroll 1000 sum to
120, above the cap 100, but the merge-back loop replaces the second
entry by the first, so the post-scaling approved sum is 25 + 25 = 50,
not the cap, and the second stake 25 is not 90 * (100/120) = 75. -/
theorem portfolio_duplicate_key_collapse :
    approved_total ds_dup > settings_risk_cfg.bankroll * (1/10) ∧
    approved_total (apply_portfolio_constraints settings_risk_cfg ds_dup) ≠
      settings_risk_cfg.bankroll * (1/10) ∧
    (apply_portfolio_constraints settings_risk_cfg ds_dup).map RMDecision.bet_size ≠
      ds_dup.map (fun d =>
        d.bet_size * (settings_risk_cfg.bankroll * (1/10) / approved_total ds_dup)) := by
  refine ⟨by norm_num [approved_total, ds_dup, rm_decision, settings_risk_cfg], ?_, ?_⟩ <;>
    norm_num [approved_total, apply_portfolio_constraints, ds_dup, rm_decision,
      settings_risk_cfg, scale_decision, first_key_match, List.find?, List.filter]

/-- C2 amended: when the approved decisions of a batch carry pairwise
distinct (game_id, team) keys and their stakes sum to S strictly above
the 10 percent portfolio cap (bankroll nonnegative), the portfolio
check multiplies every approved stake by the same ratio cap / S,
rejects nothing (the should_bet flags are unchanged position by
position), and the post-scaling sum of approved stakes equals the cap
exactly; with duplicate keys the merge-back loop replaces later
duplicates by the first matching entry and the guarantee fails. -/
theorem portfolio_scaling (rc : RiskConfig) (ds : List RMDecision)
    (hb : 0 ≤ rc.bankroll)
    (hS : approved_total ds > rc.bankroll * (1/10))
    (hkeys : ((ds.filter fun d => d.should_bet).map fun d => (d.game_id, d.team)).Nodup) :
    approved_total (apply_portfolio_constraints rc ds) = rc.bankroll * (1/10) ∧
    (apply_portfolio_constraints rc ds).map RMDecision.should_bet =
      ds.map RMDecision.should_bet ∧
    (apply_portfolio_constraints rc ds).map RMDecision.bet_size =
      ds.map (fun d => if d.should_bet then
        d.bet_size * (rc.bankroll * (1/10) / approved_total ds) else d.bet_size) := by
  have hcap : 0 ≤ rc.bankroll * (1/10) := by positivity
  have hSpos : 0 < approved_total ds := lt_of_le_of_lt hcap hS
  have hSne : approved_total ds ≠ 0 := ne_of_gt hSpos
  have hact : ¬ ((ds.filter fun d => d.should_bet).isEmpty = true) := by
    intro hc
    have hnil : (ds.filter fun d => d.should_bet) = [] := List.isEmpty_iff.mp hc
    have : approved_total ds = 0 := by
      unfold approved_total
      rw [hnil]
      rfl
    exact hSne this
  have htot : ((ds.filter fun d => d.should_bet).map fun d => d.bet_size).sum =
      approved_total ds := rfl
  have hkeys2 : (((ds.map (scale_decision (rc.bankroll * (1/10) / approved_total ds))).filter
      fun d => d.should_bet).map fun d => (d.game_id, d.team)).Nodup := by
    rw [filter_scale, List.map_map]
    have hkey_comp : ((fun d : RMDecision => (d.game_id, d.team)) ∘
        scale_decision (rc.bankroll * (1/10) / approved_total ds)) =
        fun d : RMDecision => (d.game_id, d.team) := by
      funext d
      simp [Function.comp, scale_decision_game_id, scale_decision_team]
    rw [hkey_comp]
    exact hkeys
  simp only [apply_portfolio_constraints]
  rw [if_neg hact, if_pos (htot ▸ hS), htot, merge_noop _ hkeys2]
  refine ⟨?_, map_should_bet_scale _ ds, map_bet_size_scale _ ds⟩
  rw [approved_total_map_scale, mul_comm, div_mul_cancel₀ _ hSne]

/-- Witness for the amended C2: two approved stakes of 60 on distinct
(game_id, team) keys against the default bankroll 1000 sum to 120,
above the cap 100, and after scaling the approved total equals the
cap. -/
theorem portfolio_scaling_witness :
    approved_total (apply_portfolio_constraints settings_risk_cfg ds_over_cap) =
      settings_risk_cfg.bankroll * (1/10) :=
  (portfolio_scaling settings_risk_cfg ds_over_cap
    (by norm_num [settings_risk_cfg])
    (by norm_num [approved_total, ds_over_cap, rm_decision, settings_risk_cfg])
    (by
      norm_num [ds_over_cap, rm_decision, List.filter]
      intro h
      simp at h)).1

end Billy
